import Mathlib

/-!
Formal model of the queue-ticketing backend (Queue-Management-System-Backend).

The definitions below are shallow embeddings of the JavaScript controllers:
 * `src/controllers/ticketController.js` — `createTicket`, `cancelTicket`,
   `callTicket`, `serveTicket`, `startTicket`, `completeTicket`,
   `noShowTicket`, `callNextTicket`
 * `src/controllers/businessController.js` — `closeQueue` (the variant that
   resets the counters and bulk-cancels waiting tickets)
 * `src/controllers/queueController.js` — the simple `closeQueue` /
   `pauseQueue` / `resumeQueue` status updates
 * `src/utils/etaCalculator.js` — `calculateETA`

MongoDB per-document atomicity is modelled by making each `findOneAndUpdate`
(and each controller body) a pure function on an explicit state; the
conditional update used by ticket admission is the function `admitCommit`.
HTTP error responses are modelled as `Except Err` values carrying the HTTP
status code and message produced by the controller.
-/

namespace QMS

/-- Ticket lifecycle status (`status` field of the ticket schema):
"waiting", "called", "in-progress", "done", "cancelled", "missed". -/
inductive TStatus
  | waiting
  | called
  | inProgress
  | done
  | cancelled
  | missed
deriving DecidableEq, Repr

/-- Queue lifecycle status: "active", "paused", "closed". -/
inductive QStatus
  | active
  | paused
  | closed
deriving DecidableEq, Repr

/-- Rendering of a ticket status, used in the controllers' message strings
(template literal in `cancelTicket`). -/
def statusName : TStatus → String
  | TStatus.waiting => "waiting"
  | TStatus.called => "called"
  | TStatus.inProgress => "in-progress"
  | TStatus.done => "done"
  | TStatus.cancelled => "cancelled"
  | TStatus.missed => "missed"

/-- A Ticket document.  Identifiers and timestamps are natural numbers;
`userId` is nullable (walk-ins).  `estimatedTime` is the stored ETA in
minutes. -/
structure Ticket where
  tid : Nat
  userId : Option Nat
  ticketNumber : Nat
  status : TStatus
  calledAt : Option Nat
  startedAt : Option Nat
  completedAt : Option Nat
  cancelReason : Option String
  estimatedTime : Int
deriving DecidableEq, Repr

/-- A Queue document: capacity, the two counters, lifecycle status.
`currentCount` is an `Int` because the code mutates it with Mongo `$inc`
(which is plain integer arithmetic). -/
structure Queue where
  maxCapacity : Nat
  currentCount : Int
  currentTicketNumber : Nat
  status : QStatus
deriving DecidableEq, Repr

/-- An HTTP-level error: status code plus message, e.g.
`(400, "Queue is full")`. -/
abbrev Err := Nat × String

/-- The result record of `etaCalculator.calculateETA`. -/
structure ETAPrediction where
  estimatedMinutes : Int
  confidence : String
  method : String
deriving DecidableEq, Repr

/-- The ETA value used when a caller needs some fixed prediction. -/
def defaultETA : ETAPrediction :=
  { estimatedMinutes := 15, confidence := "low", method := "default" }

/-- The atomic conditional update of `createTicket`
(`Queue.findOneAndUpdate({_id, currentCount: {$lt: maxCapacity}, status:
"active"}, {$inc: {currentCount: 1, currentTicketNumber: 1}}, {new:
true})`).  Returns the post-update queue, or `none` when the predicate does
not match at commit time. -/
def admitCommit (q : Queue) : Option Queue :=
  if q.currentCount < (q.maxCapacity : Int) ∧ q.status = QStatus.active then
    some { q with currentCount := q.currentCount + 1,
                  currentTicketNumber := q.currentTicketNumber + 1 }
  else none

/-- `createTicket` (ticketController.js).  The business-existence and
queue-ownership checks are outside this per-queue model; the queue-status
check, the capacity pre-check, the conditional update and the persisted
ticket are embedded directly.  The ETA prediction is an input because the
calculator only reads historical data.  On success the result is the
post-update queue and the persisted ticket (status "waiting", number equal
to the post-increment `currentTicketNumber`). -/
def createTicket (q : Queue) (tid : Nat) (uid : Option Nat)
    (eta : ETAPrediction) : Except Err (Queue × Ticket) :=
  if q.status ≠ QStatus.active then
    Except.error (400, "Queue not accepting tickets")
  else if (q.maxCapacity : Int) ≤ q.currentCount then
    Except.error (400, "Queue is full")
  else
    match admitCommit q with
    | none => Except.error (400, "Queue is no longer available for new tickets")
    | some q' =>
      Except.ok (q',
        { tid := tid
          userId := uid
          ticketNumber := q'.currentTicketNumber
          status := TStatus.waiting
          calledAt := none
          startedAt := none
          completedAt := none
          cancelReason := none
          estimatedTime := eta.estimatedMinutes })

/-- `cancelTicket` (ticketController.js): terminal statuses are rejected;
otherwise the ticket becomes "cancelled" and the queue count is decremented
iff the prior status was "waiting". -/
def cancelTicket (t : Ticket) (q : Queue) (reason : Option String) :
    Except Err (Ticket × Queue) :=
  if t.status = TStatus.done ∨ t.status = TStatus.cancelled ∨
      t.status = TStatus.missed then
    Except.error (400, "Cannot cancel a " ++ statusName t.status ++ " ticket")
  else
    let t' := { t with status := TStatus.cancelled, cancelReason := reason }
    let q' := if t.status = TStatus.waiting then
                { q with currentCount := q.currentCount - 1 }
              else q
    Except.ok (t', q')

/-- `callTicket` (ticketController.js): only waiting tickets can be called;
sets `calledAt`. -/
def callTicket (t : Ticket) (q : Queue) (now : Nat) :
    Except Err (Ticket × Queue) :=
  if t.status ≠ TStatus.waiting then
    Except.error (400, "Only waiting tickets can be called")
  else
    Except.ok ({ t with status := TStatus.called, calledAt := some now }, q)

/-- `serveTicket` (ticketController.js): called or waiting tickets move to
"in-progress"; sets `startedAt`. -/
def serveTicket (t : Ticket) (q : Queue) (now : Nat) :
    Except Err (Ticket × Queue) :=
  if t.status = TStatus.called ∨ t.status = TStatus.waiting then
    Except.ok ({ t with status := TStatus.inProgress, startedAt := some now }, q)
  else
    Except.error (400, "Only called or waiting tickets can be served")

/-- `startTicket` (ticketController.js): called or waiting tickets move to
"in-progress"; the code sets only `ticket.status` (no `startedAt`). -/
def startTicket (t : Ticket) (q : Queue) :
    Except Err (Ticket × Queue) :=
  if t.status = TStatus.called ∨ t.status = TStatus.waiting then
    Except.ok ({ t with status := TStatus.inProgress }, q)
  else
    Except.error (400, "Only called or waiting tickets can be started")

/-- `completeTicket` (ticketController.js): rejected only when the status is
already "done"; otherwise sets status "done" and `completedAt`, leaves the
queue document untouched, and calls `etaCalculator.updateQueueETAs` (the
returned `Bool` records that this trigger fired; the ticket schema always
carries a `queueId` here). -/
def completeTicket (t : Ticket) (q : Queue) (now : Nat) :
    Except Err (Ticket × Queue × Bool) :=
  if t.status = TStatus.done then
    Except.error (400, "Ticket already completed")
  else
    Except.ok ({ t with status := TStatus.done, completedAt := some now }, q, true)

/-- `noShowTicket` (ticketController.js): only waiting tickets can be marked
as no-show; sets status "missed" and decrements the queue count. -/
def noShowTicket (t : Ticket) (q : Queue) :
    Except Err (Ticket × Queue) :=
  if t.status ≠ TStatus.waiting then
    Except.error (400, "Only waiting tickets can be marked as no-show")
  else
    Except.ok ({ t with status := TStatus.missed },
               { q with currentCount := q.currentCount - 1 })

/-- The waiting tickets of a queue (the Mongo filter
`{queueId, status: "waiting"}`). -/
def waitingList (ts : List Ticket) : List Ticket :=
  ts.filter (fun t => t.status = TStatus.waiting)

/-- Accumulator of the minimum-ticket-number scan. -/
def minAcc (acc : Option Ticket) (t : Ticket) : Option Ticket :=
  match acc with
  | none => some t
  | some m => if t.ticketNumber < m.ticketNumber then some t else some m

/-- `Ticket.findOne({queueId, status: "waiting"}).sort({ticketNumber: 1})`:
the waiting ticket with the least ticket number (the first such on a tie,
though numbers of waiting tickets never tie in reachable states). -/
def minWaiting (ts : List Ticket) : Option Ticket :=
  (waitingList ts).foldl minAcc none

/-- `callNextTicket` (ticketController.js, call-next variant): requires the
queue to exist and be "active", then calls the waiting ticket with the
lowest number, or fails 404 when none is waiting.  Returns the called
ticket, the (unchanged) queue, and the updated ticket list. -/
def callNextTicket (q : Queue) (ts : List Ticket) (now : Nat) :
    Except Err (Ticket × Queue × List Ticket) :=
  if q.status ≠ QStatus.active then
    Except.error (400, "Queue is not active")
  else
    match minWaiting ts with
    | none => Except.error (404, "No waiting tickets in the queue")
    | some t =>
      let t' := { t with status := TStatus.called, calledAt := some now }
      Except.ok (t', q,
        ts.map (fun u =>
          if u.ticketNumber = t.ticketNumber ∧ u.status = TStatus.waiting
          then t' else u))

/-- A socket event emitted by the fanout layer (`socketHandler.js`). -/
inductive Event
  | queueUpdated
  | ticketCreated (n : Nat)
  | ticketCalled (n : Nat)
  | ticketUpdated (n : Nat)
  | ticketCancelled (n : Nat)
  | ticketCompleted (n : Nat)
  | ticketSkipped (n : Nat)
  | userNotified (u : Nat)
deriving DecidableEq, Repr

/-- Whether an event is a ticket-cancellation event. -/
def isCancelEvent : Event → Bool
  | Event.ticketCancelled _ => true
  | _ => false

/-- Whether an event is a queue-updated event. -/
def isQueueUpdatedEvent : Event → Bool
  | Event.queueUpdated => true
  | _ => false

/-- The per-ticket effect of the `Ticket.updateMany({queueId, status:
"waiting"}, {status: "cancelled", cancelReason: "Queue Closed", ...})` in
`closeQueue` (businessController.js). -/
def cancelWaitingTicket (t : Ticket) : Ticket :=
  if t.status = TStatus.waiting then
    { t with status := TStatus.cancelled, cancelReason := some "Queue Closed" }
  else t

/-- The per-ticket event block emitted for each waiting ticket inside
`closeQueue`'s `forEach` (businessController.js): a ticket-updated event, a
ticket-cancelled event and, when the ticket has a user, a user
notification. -/
def closeEvs (t : Ticket) : List Event :=
  [Event.ticketUpdated t.ticketNumber, Event.ticketCancelled t.ticketNumber] ++
    (match t.userId with
     | some u => [Event.userNotified u]
     | none => [])

/-- `closeQueue` (businessController.js): bulk-cancels the waiting tickets,
sets the queue to "closed" with both counters reset to zero, and emits one
queue-updated event followed by one `closeEvs` block per previously
waiting ticket. -/
def closeQueueFull (q : Queue) (ts : List Ticket) :
    Queue × List Ticket × List Event :=
  let waiting := waitingList ts
  let ts' := ts.map cancelWaitingTicket
  let q' := { q with status := QStatus.closed, currentCount := 0,
                     currentTicketNumber := 0 }
  let events := Event.queueUpdated :: waiting.flatMap closeEvs
  (q', ts', events)

/-- `closeQueue` (queueController.js): only sets the status to "closed". -/
def closeQueueSimple (q : Queue) : Queue :=
  { q with status := QStatus.closed }

/-- `pauseQueue` (queueController.js). -/
def pauseQueue (q : Queue) : Queue :=
  { q with status := QStatus.paused }

/-- `resumeQueue` (queueController.js): unconditionally sets "active". -/
def resumeQueue (q : Queue) : Queue :=
  { q with status := QStatus.active }

/-- The state of one queue and its tickets, in creation order. -/
structure Sys where
  queue : Queue
  tickets : List Ticket
deriving DecidableEq, Repr

/-- A fresh queue as created by `createQueue`: both counters zero, status
"active". -/
def freshQueue (c : Nat) : Queue :=
  { maxCapacity := c, currentCount := 0, currentTicketNumber := 0,
    status := QStatus.active }

/-- A fresh system: a fresh queue with no tickets. -/
def freshSys (c : Nat) : Sys :=
  { queue := freshQueue c, tickets := [] }

/-- One request against the system; ticket-level requests address a ticket
by its position in the creation-order list. -/
inductive Op
  | admitReq
  | cancel (i : Nat) (reason : Option String)
  | call (i : Nat)
  | serve (i : Nat)
  | start (i : Nat)
  | complete (i : Nat)
  | noShow (i : Nat)
  | callNext
  | closeFull
  | closeSimple
  | pauseQ
  | resumeQ
deriving DecidableEq, Repr

/-- Run a ticket-level controller against the ticket at position `i`: a 404
(missing ticket) or any controller error leaves the state unchanged;
otherwise the ticket and queue documents are replaced by the saved ones. -/
def applyTrans (s : Sys) (i : Nat)
    (f : Ticket → Queue → Except Err (Ticket × Queue)) : Sys :=
  match s.tickets.get? i with
  | none => s
  | some t =>
    match f t s.queue with
    | Except.error _ => s
    | Except.ok (t', q') => { queue := q', tickets := s.tickets.set i t' }

/-- One step of the system: dispatch a request to the embedded controller.
Timestamps are irrelevant to the properties below and are fixed to 0. -/
def step (s : Sys) (op : Op) : Sys :=
  match op with
  | Op.admitReq =>
    match createTicket s.queue s.tickets.length none defaultETA with
    | Except.error _ => s
    | Except.ok (q', t) => { queue := q', tickets := s.tickets ++ [t] }
  | Op.cancel i reason => applyTrans s i (fun t q => cancelTicket t q reason)
  | Op.call i => applyTrans s i (fun t q => callTicket t q 0)
  | Op.serve i => applyTrans s i (fun t q => serveTicket t q 0)
  | Op.start i => applyTrans s i (fun t q => startTicket t q)
  | Op.complete i =>
    applyTrans s i (fun t q =>
      (completeTicket t q 0).map (fun r => (r.1, r.2.1)))
  | Op.noShow i => applyTrans s i (fun t q => noShowTicket t q)
  | Op.callNext =>
    match callNextTicket s.queue s.tickets 0 with
    | Except.error _ => s
    | Except.ok (_, q', ts') => { queue := q', tickets := ts' }
  | Op.closeFull =>
    let r := closeQueueFull s.queue s.tickets
    { queue := r.1, tickets := r.2.1 }
  | Op.closeSimple => { s with queue := closeQueueSimple s.queue }
  | Op.pauseQ => { s with queue := pauseQueue s.queue }
  | Op.resumeQ => { s with queue := resumeQueue s.queue }

/-- Run a list of requests in order. -/
def runOps (s : Sys) (ops : List Op) : Sys :=
  ops.foldl step s

/-- Run `n` admission requests sequentially (each request performs its
pre-checks and its conditional update against the current queue state) and
count the successes. -/
def admitRun : Nat → Queue → Queue × Nat
  | 0, q => (q, 0)
  | n + 1, q =>
    match createTicket q 0 none defaultETA with
    | Except.ok (q', _) => ((admitRun n q').1, (admitRun n q').2 + 1)
    | Except.error _ => admitRun n q

/-- One historical sample for the ETA aggregation: a completed ticket of the
business from the trailing 30 days (`$match {businessId, status: "done",
createdAt: {$gte: thirtyDaysAgo}}`), reduced to the fields the pipeline
uses: the hour-of-day of `createdAt` and the stored `estimatedTime`. -/
structure RawTicketSample where
  hour : Int
  estimatedTime : ℚ
deriving DecidableEq, Repr

/-- Mean of a list of rationals (`$avg`); `0` on the empty list, which the
calculator never uses. -/
def listMean (xs : List ℚ) : ℚ := xs.sum / xs.length

/-- JavaScript `Math.round`: round half up. -/
def jsRound (x : ℚ) : Int := Int.floor (x + 1/2)

/-- The `serviceMultipliers` table of `calculateETA` with its default 1.0. -/
def serviceMultiplier (serviceType : String) : ℚ :=
  if serviceType = "examination" then 1
  else if serviceType = "consultation" then 3/2
  else if serviceType = "procedure" then 2
  else if serviceType = "followup" then 7/10
  else 1

/-- The `peakHours` list of `calculateETA`. -/
def peakHours : List Int := [9, 10, 11, 14, 15, 16]

/-- `calculateETA` (etaCalculator.js), as a pure function of its inputs:
`crash` models the `try/catch` (any internal error is recovered to the
default-fallback estimate); `queueOpt` is the result of
`Queue.findById(queueId)`; `currentHour`/`currentDay` come from `new
Date()`; `samples` is the set matched by both aggregation pipelines
(completed tickets of the business in the trailing 30 days).  The hourly
pipeline keeps the samples whose hour is within ±1 of the current hour; it
refines the 30-day mean when the full set has ≥ 10 samples and the hourly
subset ≥ 5.  The returned minutes are
`Math.round(waitingCount * base * multipliers)` with
`waitingCount = queue.currentCount`. -/
def calculateETA (crash : Bool) (queueOpt : Option Queue)
    (currentHour currentDay : Int) (samples : List RawTicketSample)
    (serviceType : String) : ETAPrediction :=
  if crash then
    { estimatedMinutes := 15, confidence := "low", method := "default_fallback" }
  else
    match queueOpt with
    | none => { estimatedMinutes := 15, confidence := "low", method := "default" }
    | some queue =>
      let overallCount := samples.length
      let overallAvg := listMean (samples.map (fun s => s.estimatedTime))
      let hourly := samples.filter
        (fun s => currentHour - 1 ≤ s.hour ∧ s.hour ≤ currentHour + 1)
      let hourlyCount := hourly.length
      let hourlyAvg := listMean (hourly.map (fun s => s.estimatedTime))
      let base :=
        if 10 ≤ overallCount then
          if 5 ≤ hourlyCount then (hourlyAvg, "high", "hourly_pattern")
          else (overallAvg, "medium", "historical_average")
        else ((15 : ℚ), "low", "default")
      let multiplier := serviceMultiplier serviceType
      let peakMultiplier : ℚ := if currentHour ∈ peakHours then 6/5 else 1
      let weekendMultiplier : ℚ :=
        if currentDay = 0 ∨ currentDay = 6 then 4/5 else 1
      let adjustedServiceTime :=
        base.1 * multiplier * peakMultiplier * weekendMultiplier
      let waitingCount : ℚ := (queue.currentCount : ℚ)
      { estimatedMinutes := jsRound (waitingCount * adjustedServiceTime),
        confidence := base.2.1, method := base.2.2 }

/-- Modelled from the spec (§4.4): the per-customer service time in the
spec's own words — the 30-day mean when ≥ 10 samples exist (refined to the
±1 hour-of-day subset mean when that subset has ≥ 5 samples), else the
fixed 15-minute default, multiplied by the service-type, peak-hour and
weekend multipliers. -/
def specBaseServiceTime (samples : List RawTicketSample) (hour : Int) : ℚ :=
  if samples.length < 10 then 15
  else
    let subset := samples.filter
      (fun s => hour - 1 ≤ s.hour ∧ s.hour ≤ hour + 1)
    if 5 ≤ subset.length then listMean (subset.map (fun s => s.estimatedTime))
    else listMean (samples.map (fun s => s.estimatedTime))

/-- Modelled from the spec (§4.4): base × all multipliers. -/
def specPerCustomer (samples : List RawTicketSample) (hour day : Int)
    (serviceType : String) : ℚ :=
  specBaseServiceTime samples hour * serviceMultiplier serviceType *
    (if hour ∈ peakHours then 6/5 else 1) *
    (if day = 0 ∨ day = 6 then 4/5 else 1)

/-- Whether an `Except` result is a success. -/
def exceptOk {α : Type} (r : Except Err α) : Bool :=
  match r with
  | Except.ok _ => true
  | Except.error _ => false

/-! Concrete fixtures used by witnesses and counterexamples. -/

/-- A waiting ticket, number 1, no timestamps yet. -/
def exWaitingTicket : Ticket :=
  { tid := 0, userId := none, ticketNumber := 1, status := TStatus.waiting,
    calledAt := none, startedAt := none, completedAt := none,
    cancelReason := none, estimatedTime := 15 }

/-- A queue of capacity 5 holding one active ticket. -/
def exQueueOne : Queue :=
  { maxCapacity := 5, currentCount := 1, currentTicketNumber := 1,
    status := QStatus.active }

/-- A completed ticket. -/
def exDoneTicket : Ticket :=
  { exWaitingTicket with status := TStatus.done, completedAt := some 3 }

/-- A cancelled ticket. -/
def exCancelledTicket : Ticket :=
  { exWaitingTicket with status := TStatus.cancelled }

/-- A called ticket. -/
def exCalledTicket : Ticket :=
  { exWaitingTicket with status := TStatus.called, calledAt := some 2 }

/-- A system whose only ticket is already done. -/
def exSysDone : Sys :=
  { queue := exQueueOne, tickets := [exDoneTicket] }

/-- A ticket-level request whose embedded controller rejects the found
ticket leaves the system unchanged. -/
theorem applyTrans_of_error {s : Sys} {i : Nat} {t : Ticket}
    {f : Ticket → Queue → Except Err (Ticket × Queue)} (e : Err)
    (hget : s.tickets.get? i = some t) (he : f t s.queue = Except.error e) :
    applyTrans s i f = s := by
  simp only [applyTrans, hget, he]

/-- C3 (amended): a ticket in a terminal status ("done", "cancelled" or
"missed") is rejected with an error — and the system state is left
unchanged — by cancel, call, serve, start and no-show; the complete
operation, however, rejects it exactly when the status is already "done"
(a "cancelled" or "missed" ticket is still accepted by complete). -/
theorem terminal_transitions_conflict (t : Ticket) (q : Queue) (now : Nat)
    (reason : Option String) (s : Sys) (i : Nat)
    (hterm : t.status = TStatus.done ∨ t.status = TStatus.cancelled ∨
             t.status = TStatus.missed)
    (hget : s.tickets.get? i = some t) :
    (∃ e, cancelTicket t q reason = Except.error e) ∧
    (∃ e, callTicket t q now = Except.error e) ∧
    (∃ e, serveTicket t q now = Except.error e) ∧
    (∃ e, startTicket t q = Except.error e) ∧
    (∃ e, noShowTicket t q = Except.error e) ∧
    ((∃ e, completeTicket t q now = Except.error e) ↔ t.status = TStatus.done) ∧
    step s (Op.cancel i reason) = s ∧
    step s (Op.call i) = s ∧
    step s (Op.serve i) = s ∧
    step s (Op.start i) = s ∧
    step s (Op.noShow i) = s := by
  have hcan : ∀ qq : Queue, cancelTicket t qq reason =
      Except.error (400, "Cannot cancel a " ++ statusName t.status ++ " ticket") := by
    intro qq
    rcases hterm with h | h | h <;> simp [cancelTicket, h]
  have hcall : ∀ (qq : Queue) (nn : Nat), callTicket t qq nn =
      Except.error (400, "Only waiting tickets can be called") := by
    intro qq nn
    rcases hterm with h | h | h <;> simp [callTicket, h]
  have hserve : ∀ (qq : Queue) (nn : Nat), serveTicket t qq nn =
      Except.error (400, "Only called or waiting tickets can be served") := by
    intro qq nn
    rcases hterm with h | h | h <;> simp [serveTicket, h]
  have hstart : ∀ qq : Queue, startTicket t qq =
      Except.error (400, "Only called or waiting tickets can be started") := by
    intro qq
    rcases hterm with h | h | h <;> simp [startTicket, h]
  have hnoshow : ∀ qq : Queue, noShowTicket t qq =
      Except.error (400, "Only waiting tickets can be marked as no-show") := by
    intro qq
    rcases hterm with h | h | h <;> simp [noShowTicket, h]
  refine ⟨⟨_, hcan q⟩, ⟨_, hcall q now⟩, ⟨_, hserve q now⟩, ⟨_, hstart q⟩,
    ⟨_, hnoshow q⟩, ?_, ?_, ?_, ?_, ?_, ?_⟩
  · rcases hterm with h | h | h <;> simp [completeTicket, h]
  · simp only [step]
    exact applyTrans_of_error _ hget (hcan s.queue)
  · simp only [step]
    exact applyTrans_of_error _ hget (hcall s.queue 0)
  · simp only [step]
    exact applyTrans_of_error _ hget (hserve s.queue 0)
  · simp only [step]
    exact applyTrans_of_error _ hget (hstart s.queue)
  · simp only [step]
    exact applyTrans_of_error _ hget (hnoshow s.queue)

/-- C3 witness: the amended statement instantiated on a concrete done
ticket in a one-ticket system. -/
theorem terminal_transitions_conflict_witness :
    ((exDoneTicket.status = TStatus.done ∨
      exDoneTicket.status = TStatus.cancelled ∨
      exDoneTicket.status = TStatus.missed) ∧
     exSysDone.tickets.get? 0 = some exDoneTicket) ∧
    ((∃ e, cancelTicket exDoneTicket exQueueOne (some "r") = Except.error e) ∧
     (∃ e, callTicket exDoneTicket exQueueOne 4 = Except.error e) ∧
     (∃ e, serveTicket exDoneTicket exQueueOne 4 = Except.error e) ∧
     (∃ e, startTicket exDoneTicket exQueueOne = Except.error e) ∧
     (∃ e, noShowTicket exDoneTicket exQueueOne = Except.error e) ∧
     ((∃ e, completeTicket exDoneTicket exQueueOne 4 = Except.error e) ↔
       exDoneTicket.status = TStatus.done) ∧
     step exSysDone (Op.cancel 0 (some "r")) = exSysDone ∧
     step exSysDone (Op.call 0) = exSysDone ∧
     step exSysDone (Op.serve 0) = exSysDone ∧
     step exSysDone (Op.start 0) = exSysDone ∧
     step exSysDone (Op.noShow 0) = exSysDone) :=
  ⟨⟨Or.inl rfl, rfl⟩,
   terminal_transitions_conflict exDoneTicket exQueueOne 4 (some "r")
     exSysDone 0 (Or.inl rfl) rfl⟩

/-- C3 counterexample: `completeTicket` applied to a ticket whose status is
the terminal "cancelled" does NOT fail — it succeeds and rewrites the
ticket to "done" — refuting the claim that every lifecycle transition on a
terminal ticket fails. -/
theorem complete_on_cancelled_cex :
    exCancelledTicket.status = TStatus.cancelled ∧
    completeTicket exCancelledTicket exQueueOne 7 =
      Except.ok ({ exCancelledTicket with
        status := TStatus.done
        completedAt := some 7 }, exQueueOne, true) :=
  ⟨rfl, rfl⟩

/-- C4 (amended): completing any ticket not already "done" succeeds, sets
the status to "done" and `completedAt`, and triggers ETA re-estimation for
the queue — but it leaves the Queue document (in particular
`currentCount`) completely unchanged: no decrement is performed. -/
theorem complete_sets_done (t : Ticket) (q : Queue) (now : Nat)
    (h : t.status ≠ TStatus.done) :
    ∃ t', completeTicket t q now = Except.ok (t', q, true) ∧
      t'.status = TStatus.done ∧ t'.completedAt = some now ∧
      t'.ticketNumber = t.ticketNumber := by
  refine ⟨{ t with status := TStatus.done, completedAt := some now }, ?_, rfl, rfl, rfl⟩
  simp [completeTicket, h]

/-- C4 witness: the amended statement instantiated on a concrete waiting
ticket. -/
theorem complete_sets_done_witness :
    exWaitingTicket.status ≠ TStatus.done ∧
    (∃ t', completeTicket exWaitingTicket exQueueOne 7 =
        Except.ok (t', exQueueOne, true) ∧
      t'.status = TStatus.done ∧ t'.completedAt = some 7 ∧
      t'.ticketNumber = exWaitingTicket.ticketNumber) :=
  ⟨by decide, complete_sets_done exWaitingTicket exQueueOne 7 (by decide)⟩

/-- C4 counterexample: completing a waiting ticket of a queue whose
`currentCount` is 1 returns the queue unchanged (count still 1), whereas
the claim requires the count to drop to 0: the complete path performs no
decrement. -/
theorem complete_no_decrement_cex :
    completeTicket exWaitingTicket exQueueOne 7 =
      Except.ok ({ exWaitingTicket with
        status := TStatus.done
        completedAt := some 7 }, exQueueOne, true) ∧
    ¬ exQueueOne.currentCount = exQueueOne.currentCount - 1 :=
  ⟨rfl, by decide⟩

/-- C9 (amended): of the two transitions into "in-progress", only
`serveTicket` sets `startedAt`; `startTicket` succeeds on the same
preconditions but stores only the new status, leaving `startedAt` exactly
as it was. -/
theorem serve_sets_startedAt (t : Ticket) (q : Queue) (now : Nat)
    (h : t.status = TStatus.called ∨ t.status = TStatus.waiting) :
    serveTicket t q now =
      Except.ok ({ t with status := TStatus.inProgress, startedAt := some now }, q) ∧
    startTicket t q =
      Except.ok ({ t with status := TStatus.inProgress }, q) ∧
    ({ t with status := TStatus.inProgress } : Ticket).startedAt = t.startedAt := by
  refine ⟨?_, ?_, rfl⟩ <;> simp [serveTicket, startTicket, h]

/-- C9 witness: the amended statement instantiated on a concrete called
ticket. -/
theorem serve_sets_startedAt_witness :
    (exCalledTicket.status = TStatus.called ∨
     exCalledTicket.status = TStatus.waiting) ∧
    (serveTicket exCalledTicket exQueueOne 9 =
      Except.ok ({ exCalledTicket with
        status := TStatus.inProgress
        startedAt := some 9 }, exQueueOne) ∧
     startTicket exCalledTicket exQueueOne =
      Except.ok ({ exCalledTicket with status := TStatus.inProgress }, exQueueOne) ∧
     ({ exCalledTicket with status := TStatus.inProgress } : Ticket).startedAt =
       exCalledTicket.startedAt) :=
  ⟨Or.inl rfl, serve_sets_startedAt exCalledTicket exQueueOne 9 (Or.inl rfl)⟩

/-- C9 counterexample: `startTicket` on a waiting ticket whose `startedAt`
is unset succeeds, yet the resulting ticket still has `startedAt = none`,
refuting the claim that the start operation sets the timestamp. -/
theorem start_no_startedAt_cex :
    startTicket exWaitingTicket exQueueOne =
      Except.ok ({ exWaitingTicket with status := TStatus.inProgress }, exQueueOne) ∧
    ({ exWaitingTicket with status := TStatus.inProgress } : Ticket).startedAt = none :=
  ⟨rfl, rfl⟩

/-- C10: cancelling a non-terminal ticket succeeds, sets the status to
"cancelled", never touches `currentTicketNumber`, and decrements
`currentCount` by exactly 1 iff the ticket was "waiting" just before the
cancellation (a "called" or "in-progress" ticket leaves the queue document
untouched). -/
theorem cancel_decrements_iff_waiting (t : Ticket) (q : Queue)
    (reason : Option String)
    (h : t.status = TStatus.waiting ∨ t.status = TStatus.called ∨
         t.status = TStatus.inProgress) :
    ∃ t' q', cancelTicket t q reason = Except.ok (t', q') ∧
      t'.status = TStatus.cancelled ∧ t'.ticketNumber = t.ticketNumber ∧
      q'.currentTicketNumber = q.currentTicketNumber ∧
      (t.status = TStatus.waiting → q'.currentCount = q.currentCount - 1) ∧
      (t.status ≠ TStatus.waiting → q' = q) := by
  rcases h with h | h | h
  · refine ⟨{ t with status := TStatus.cancelled, cancelReason := reason },
      { q with currentCount := q.currentCount - 1 }, ?_, rfl, rfl, rfl,
      fun _ => rfl, fun hn => absurd h hn⟩
    simp [cancelTicket, h]
  · refine ⟨{ t with status := TStatus.cancelled, cancelReason := reason },
      q, ?_, rfl, rfl, rfl, ?_, fun _ => rfl⟩
    · simp [cancelTicket, h]
    · simp [h]
  · refine ⟨{ t with status := TStatus.cancelled, cancelReason := reason },
      q, ?_, rfl, rfl, rfl, ?_, fun _ => rfl⟩
    · simp [cancelTicket, h]
    · simp [h]

/-- C10 witness: the statement instantiated on a concrete waiting ticket
(count drops from 1 to 0) — the hypothesis is discharged by computation. -/
theorem cancel_decrements_iff_waiting_witness :
    (exWaitingTicket.status = TStatus.waiting ∨
     exWaitingTicket.status = TStatus.called ∨
     exWaitingTicket.status = TStatus.inProgress) ∧
    (∃ t' q', cancelTicket exWaitingTicket exQueueOne (some "late") =
        Except.ok (t', q') ∧
      t'.status = TStatus.cancelled ∧
      t'.ticketNumber = exWaitingTicket.ticketNumber ∧
      q'.currentTicketNumber = exQueueOne.currentTicketNumber ∧
      (exWaitingTicket.status = TStatus.waiting →
        q'.currentCount = exQueueOne.currentCount - 1) ∧
      (exWaitingTicket.status ≠ TStatus.waiting → q' = exQueueOne)) :=
  ⟨Or.inl rfl,
   cancel_decrements_iff_waiting exWaitingTicket exQueueOne (some "late")
     (Or.inl rfl)⟩

/-- State reached by `n` sequential admission requests against an active
queue of capacity `c` currently holding `j ≤ c` tickets: exactly
`min n (c - j)` of them succeed, and both counters advance by that amount. -/
theorem admitRun_active (c : Nat) : ∀ (n j m : Nat), j ≤ c →
    admitRun n ⟨c, (j : Int), m, QStatus.active⟩ =
      (⟨c, ((j + min n (c - j) : Nat) : Int), m + min n (c - j),
        QStatus.active⟩, min n (c - j)) := by
  intro n
  induction n with
  | zero =>
    intro j m hj
    simp [admitRun]
  | succ n ih =>
    intro j m hj
    by_cases hc : j < c
    · have hlt : ((j : Int) < (c : Int)) := by exact_mod_cast hc
      have h1 : createTicket ⟨c, (j : Int), m, QStatus.active⟩ 0 none defaultETA =
          Except.ok ((⟨c, (j : Int) + 1, m + 1, QStatus.active⟩ : Queue),
            { tid := 0, userId := none, ticketNumber := m + 1,
              status := TStatus.waiting, calledAt := none, startedAt := none,
              completedAt := none, cancelReason := none, estimatedTime := 15 }) := by
        unfold createTicket admitCommit
        rw [if_neg (by simp), if_neg (not_le.mpr hlt), if_pos ⟨hlt, rfl⟩]
        simp [defaultETA]
      have hcast : ((j : Int) + 1) = ((j + 1 : Nat) : Int) := by push_cast; ring
      simp only [admitRun, h1]
      rw [hcast, ih (j + 1) (m + 1) (by omega)]
      simp only [Prod.mk.injEq, Queue.mk.injEq, Nat.cast_inj, true_and, and_true]
      refine ⟨⟨?_, ?_⟩, ?_⟩ <;> omega
    · have hj' : j = c := le_antisymm hj (not_lt.mp hc)
      subst hj'
      have h1 : createTicket ⟨j, (j : Int), m, QStatus.active⟩ 0 none defaultETA =
          Except.error (400, "Queue is full") := by
        unfold createTicket
        rw [if_neg (by simp), if_pos (le_refl _)]
      simp only [admitRun, h1]
      rw [ih j m (le_refl j)]
      simp [Nat.sub_self]

/-- C1: admission is capacity-bounded and atomic.  (i) A successful
`createTicket` commits exactly through the conditional update
`admitCommit`, whose predicate `currentCount < maxCapacity ∧ status =
active` is evaluated on the commit-time queue state; (ii) when the
conditional update reports no match the admission fails with an error (the
controller performs no retry — `admitCommit` is consulted exactly once);
(iii) of `n` admission requests against a fresh queue of capacity `c`,
exactly `min n c` succeed, and (iv)-(v) after any number `k` of requests
the count equals `min k c` and so never exceeds `c`. -/
theorem atomic_admission_capacity (c n k : Nat) (q : Queue) (tid : Nat)
    (uid : Option Nat) (eta : ETAPrediction) :
    (∀ q' t, createTicket q tid uid eta = Except.ok (q', t) →
       admitCommit q = some q') ∧
    (admitCommit q = none →
       ∃ e, createTicket q tid uid eta = Except.error e) ∧
    (admitRun n (freshQueue c)).2 = min n c ∧
    (admitRun k (freshQueue c)).1.currentCount = ((min k c : Nat) : Int) ∧
    (admitRun k (freshQueue c)).1.currentCount ≤ (c : Int) := by
  have hfresh : freshQueue c = (⟨c, ((0 : Nat) : Int), 0, QStatus.active⟩ : Queue) := by
    simp [freshQueue]
  have hrun : ∀ j : Nat, admitRun j (freshQueue c) =
      (⟨c, ((min j c : Nat) : Int), min j c, QStatus.active⟩, min j c) := by
    intro j
    rw [hfresh, admitRun_active c j 0 0 (Nat.zero_le c)]
    simp
  refine ⟨?_, ?_, ?_, ?_, ?_⟩
  · intro q' t h
    by_cases h1 : q.status = QStatus.active
    · by_cases h2 : (q.maxCapacity : Int) ≤ q.currentCount
      · simp [createTicket, h1, h2] at h
      · cases hac : admitCommit q with
        | none => simp [createTicket, h1, h2, hac] at h
        | some q2 =>
          simp [createTicket, h1, h2, hac] at h
          exact congrArg some h.1
    · simp [createTicket, h1] at h
  · intro hnone
    have hcond : ¬ (q.currentCount < (q.maxCapacity : Int) ∧
        q.status = QStatus.active) := by
      intro hcond
      simp [admitCommit, hcond] at hnone
    by_cases h1 : q.status = QStatus.active
    · have h2 : (q.maxCapacity : Int) ≤ q.currentCount := by
        by_contra h2
        exact hcond ⟨not_le.mp h2, h1⟩
      exact ⟨(400, "Queue is full"), by simp [createTicket, h1, h2]⟩
    · exact ⟨(400, "Queue not accepting tickets"), by simp [createTicket, h1]⟩
  · rw [hrun n]
  · rw [hrun k]
  · rw [hrun k]
    show ((min k c : Nat) : Int) ≤ (c : Int)
    exact_mod_cast Nat.min_le_right k c

/-- The minimum scan only ever returns its accumulator's element or a list
element. -/
theorem foldl_minAcc_mem : ∀ (l : List Ticket) (acc : Option Ticket) (t : Ticket),
    l.foldl minAcc acc = some t → acc = some t ∨ t ∈ l := by
  intro l
  induction l with
  | nil =>
    intro acc t h
    exact Or.inl h
  | cons x xs ih =>
    intro acc t h
    simp only [List.foldl_cons] at h
    rcases ih (minAcc acc x) t h with h1 | h1
    · cases acc with
      | none =>
        simp only [minAcc, Option.some.injEq] at h1
        exact Or.inr (by simp [h1])
      | some m =>
        by_cases hx : x.ticketNumber < m.ticketNumber
        · simp only [minAcc, hx, if_true, Option.some.injEq] at h1
          exact Or.inr (by simp [h1])
        · simp only [minAcc, hx, if_false, Option.some.injEq] at h1
          exact Or.inl (by simp [h1])
    · exact Or.inr (List.mem_cons_of_mem x h1)

/-- The minimum scan returns a ticket whose number is a lower bound of the
list's numbers and of the accumulator's. -/
theorem foldl_minAcc_le : ∀ (l : List Ticket) (acc : Option Ticket) (t : Ticket),
    l.foldl minAcc acc = some t →
    (∀ u ∈ l, t.ticketNumber ≤ u.ticketNumber) ∧
    (∀ m, acc = some m → t.ticketNumber ≤ m.ticketNumber) := by
  intro l
  induction l with
  | nil =>
    intro acc t h
    refine ⟨by simp, ?_⟩
    intro m hm
    rw [hm] at h
    injection h with h
    rw [h]
  | cons x xs ih =>
    intro acc t h
    simp only [List.foldl_cons] at h
    obtain ⟨hxs, hacc⟩ := ih (minAcc acc x) t h
    cases acc with
    | none =>
      have hx : t.ticketNumber ≤ x.ticketNumber := hacc x rfl
      refine ⟨?_, by simp⟩
      intro u hu
      rcases List.mem_cons.mp hu with h2 | h2
      · rw [h2]; exact hx
      · exact hxs u h2
    | some m =>
      by_cases hcmp : x.ticketNumber < m.ticketNumber
      · have hx : t.ticketNumber ≤ x.ticketNumber :=
          hacc x (by simp [minAcc, hcmp])
        refine ⟨?_, ?_⟩
        · intro u hu
          rcases List.mem_cons.mp hu with h2 | h2
          · rw [h2]; exact hx
          · exact hxs u h2
        · intro m' hm'
          injection hm' with hm'
          rw [← hm']
          exact le_trans hx (le_of_lt hcmp)
      · have hm : t.ticketNumber ≤ m.ticketNumber :=
          hacc m (by simp [minAcc, hcmp])
        refine ⟨?_, ?_⟩
        · intro u hu
          rcases List.mem_cons.mp hu with h2 | h2
          · rw [h2]; exact le_trans hm (not_lt.mp hcmp)
          · exact hxs u h2
        · intro m' hm'
          injection hm' with hm'
          rw [← hm']
          exact hm

/-- The selected call-next ticket is one of the waiting tickets. -/
theorem minWaiting_mem {ts : List Ticket} {t : Ticket}
    (h : minWaiting ts = some t) : t ∈ waitingList ts := by
  rcases foldl_minAcc_mem (waitingList ts) none t h with h1 | h1
  · cases h1
  · exact h1

/-- The selected call-next ticket has the least number among the waiting
tickets. -/
theorem minWaiting_le {ts : List Ticket} {t : Ticket}
    (h : minWaiting ts = some t) :
    ∀ u ∈ waitingList ts, t.ticketNumber ≤ u.ticketNumber :=
  (foldl_minAcc_le (waitingList ts) none t h).1

/-- With no waiting ticket the scan returns nothing. -/
theorem minWaiting_eq_none {ts : List Ticket} (h : waitingList ts = []) :
    minWaiting ts = none := by
  simp [minWaiting, h]

/-- C6 (amended): against an ACTIVE queue, call-next selects the waiting
ticket with the smallest ticket number and transitions it to "called" with
`calledAt` set, and fails with a 404 NotFound — leaving the system
unchanged — when no ticket is waiting; against a non-active queue the code
additionally rejects the request outright (HTTP 400 "Queue is not
active") even when waiting tickets exist. -/
theorem callNext_selects_min (q : Queue) (ts : List Ticket) (now : Nat)
    (s : Sys) (hq : q.status = QStatus.active) :
    (waitingList ts = [] →
      callNextTicket q ts now = Except.error (404, "No waiting tickets in the queue")) ∧
    (∀ t, minWaiting ts = some t →
      t ∈ waitingList ts ∧
      (∀ u ∈ waitingList ts, t.ticketNumber ≤ u.ticketNumber) ∧
      (∃ ts', callNextTicket q ts now =
        Except.ok ({ t with status := TStatus.called, calledAt := some now },
          q, ts'))) ∧
    (waitingList s.tickets = [] → step s Op.callNext = s) := by
  refine ⟨?_, ?_, ?_⟩
  · intro hempty
    simp [callNextTicket, hq, minWaiting_eq_none hempty]
  · intro t hmin
    refine ⟨minWaiting_mem hmin, minWaiting_le hmin, ?_⟩
    refine ⟨ts.map (fun u =>
      if u.ticketNumber = t.ticketNumber ∧ u.status = TStatus.waiting
      then { t with status := TStatus.called, calledAt := some now }
      else u), ?_⟩
    simp [callNextTicket, hq, hmin]
  · intro hempty
    by_cases hs : s.queue.status = QStatus.active
    · simp [step, callNextTicket, hs, minWaiting_eq_none hempty]
    · simp [step, callNextTicket, hs]

/-- C6 witness: a queue with waiting tickets numbered 2 and 1 — call-next
picks number 1; and the empty-queue NotFound branch on a fresh system. -/
theorem callNext_selects_min_witness :
    exQueueOne.status = QStatus.active ∧
    ((waitingList [] = [] →
      callNextTicket exQueueOne [] 4 = Except.error (404, "No waiting tickets in the queue")) ∧
    (∀ t, minWaiting ([] : List Ticket) = some t →
      t ∈ waitingList [] ∧
      (∀ u ∈ waitingList [], t.ticketNumber ≤ u.ticketNumber) ∧
      (∃ ts', callNextTicket exQueueOne [] 4 =
        Except.ok ({ t with status := TStatus.called, calledAt := some 4 },
          exQueueOne, ts'))) ∧
    (waitingList (freshSys 3).tickets = [] →
      step (freshSys 3) Op.callNext = freshSys 3)) :=
  ⟨rfl, callNext_selects_min exQueueOne [] 4 (freshSys 3) rfl⟩

/-- C6 counterexample: a paused queue holding a waiting ticket — the claim
(quantified over every Queue) requires call-next to select and call that
ticket, but the code rejects the request with "Queue is not active". -/
theorem callNext_inactive_cex :
    exWaitingTicket.status = TStatus.waiting ∧
    callNextTicket (pauseQueue exQueueOne) [exWaitingTicket] 4 =
      Except.error (400, "Queue is not active") :=
  ⟨rfl, rfl⟩

/-- Each per-ticket block contains exactly one cancellation event and no
queue-updated event. -/
theorem closeEvs_counts (t : Ticket) :
    (closeEvs t).countP isCancelEvent = 1 ∧
    (closeEvs t).countP isQueueUpdatedEvent = 0 := by
  cases h : t.userId <;> simp [closeEvs, h, isCancelEvent, isQueueUpdatedEvent,
    List.countP_cons]

/-- The flattened per-ticket blocks carry one cancellation event per ticket
and no queue-updated event. -/
theorem flatMap_closeEvs_counts : ∀ l : List Ticket,
    (l.flatMap closeEvs).countP isCancelEvent = l.length ∧
    (l.flatMap closeEvs).countP isQueueUpdatedEvent = 0 := by
  intro l
  induction l with
  | nil => simp
  | cons x xs ih =>
    simp only [List.flatMap_cons, List.countP_append, List.length_cons,
      (closeEvs_counts x).1, (closeEvs_counts x).2, ih.1, ih.2]
    exact ⟨by omega, trivial⟩

/-- C5 (amended): closing a Queue holding W waiting tickets sets the
Queue's status to "closed", resets `currentCount` and
`currentTicketNumber` to zero, transitions every waiting ticket to
"cancelled" — with reason string "Queue Closed" (capitalised in the code,
not "queue closed") — leaves every other ticket unchanged, and emits
exactly W ticket-cancellation events and exactly one queue-updated
event. -/
theorem closeQueue_cancels_waiting (q : Queue) (ts : List Ticket) :
    (closeQueueFull q ts).1.status = QStatus.closed ∧
    (closeQueueFull q ts).1.currentCount = 0 ∧
    (closeQueueFull q ts).1.currentTicketNumber = 0 ∧
    (∀ i t, ts.get? i = some t → t.status = TStatus.waiting →
      (closeQueueFull q ts).2.1.get? i =
        some { t with status := TStatus.cancelled,
                      cancelReason := some "Queue Closed" }) ∧
    (∀ i t, ts.get? i = some t → t.status ≠ TStatus.waiting →
      (closeQueueFull q ts).2.1.get? i = some t) ∧
    ((closeQueueFull q ts).2.2).countP isCancelEvent = (waitingList ts).length ∧
    ((closeQueueFull q ts).2.2).countP isQueueUpdatedEvent = 1 := by
  refine ⟨rfl, rfl, rfl, ?_, ?_, ?_, ?_⟩
  · intro i t hget hw
    show (ts.map cancelWaitingTicket).get? i = _
    rw [List.get?_eq_getElem?, List.getElem?_map, ← List.get?_eq_getElem?, hget]
    simp [cancelWaitingTicket, hw]
  · intro i t hget hw
    show (ts.map cancelWaitingTicket).get? i = _
    rw [List.get?_eq_getElem?, List.getElem?_map, ← List.get?_eq_getElem?, hget]
    simp [cancelWaitingTicket, hw]
  · show (Event.queueUpdated :: (waitingList ts).flatMap closeEvs).countP
      isCancelEvent = (waitingList ts).length
    simp [List.countP_cons, isCancelEvent,
      (flatMap_closeEvs_counts (waitingList ts)).1]
  · show (Event.queueUpdated :: (waitingList ts).flatMap closeEvs).countP
      isQueueUpdatedEvent = 1
    simp [List.countP_cons, isQueueUpdatedEvent,
      (flatMap_closeEvs_counts (waitingList ts)).2]

/-- C5 counterexample: closing a queue with one waiting ticket stores the
cancellation reason "Queue Closed"; the claim's reason string
"queue closed" is never written by the code. -/
theorem close_reason_cex :
    (closeQueueFull exQueueOne [exWaitingTicket]).2.1 =
      [{ exWaitingTicket with status := TStatus.cancelled,
                              cancelReason := some "Queue Closed" }] ∧
    (some "Queue Closed" : Option String) ≠ some "queue closed" :=
  ⟨rfl, by decide⟩

/-- C7 (amended): the ETA estimator is total and never blocks admission.
An internal error (`crash`) is recovered to the default-fallback estimate
{15, "low", "default_fallback"}; a missing queue yields {15, "low",
"default"}; with ZERO historical samples the estimator returns confidence
"low" and method "default", but its minutes are `Math.round(waitingCount ×
15 × multipliers)` — the waiting-count product of the 15-minute default
base, NOT the constant 15; and `createTicket` succeeds or fails
identically whatever estimate it is handed. -/
theorem eta_recovers_default (q : Queue) (qo : Option Queue) (hour day : Int)
    (samples : List RawTicketSample) (svc : String) (tid : Nat)
    (uid : Option Nat) (eta eta' : ETAPrediction)
    (hs : samples = []) :
    calculateETA true qo hour day samples svc =
      { estimatedMinutes := 15, confidence := "low", method := "default_fallback" } ∧
    calculateETA false none hour day samples svc =
      { estimatedMinutes := 15, confidence := "low", method := "default" } ∧
    (calculateETA false (some q) hour day samples svc).confidence = "low" ∧
    (calculateETA false (some q) hour day samples svc).method = "default" ∧
    (calculateETA false (some q) hour day samples svc).estimatedMinutes =
      jsRound ((q.currentCount : ℚ) * (15 * serviceMultiplier svc *
        (if hour ∈ peakHours then 6/5 else 1) *
        (if day = 0 ∨ day = 6 then 4/5 else 1))) ∧
    exceptOk (createTicket q tid uid eta) = exceptOk (createTicket q tid uid eta') := by
  subst hs
  refine ⟨rfl, rfl, ?_, ?_, ?_, ?_⟩
  · simp [calculateETA]
  · simp [calculateETA]
  · simp [calculateETA]
  · by_cases h1 : q.status = QStatus.active
    · by_cases h2 : (q.maxCapacity : Int) ≤ q.currentCount
      · simp [createTicket, h1, h2]
      · cases hac : admitCommit q with
        | none => simp [createTicket, h1, h2, hac]
        | some q2 => simp [createTicket, h1, h2, hac, exceptOk]
    · simp [createTicket, h1]

/-- C7 witness: the amended statement instantiated with an empty sample
list, a concrete queue, hour 12 of day 2, and two different ETA values. -/
theorem eta_recovers_default_witness :
    ([] : List RawTicketSample) = [] ∧
    (calculateETA true (some exQueueOne) 12 2 [] "examination" =
      { estimatedMinutes := 15, confidence := "low", method := "default_fallback" } ∧
    calculateETA false none 12 2 [] "examination" =
      { estimatedMinutes := 15, confidence := "low", method := "default" } ∧
    (calculateETA false (some exQueueOne) 12 2 [] "examination").confidence = "low" ∧
    (calculateETA false (some exQueueOne) 12 2 [] "examination").method = "default" ∧
    (calculateETA false (some exQueueOne) 12 2 [] "examination").estimatedMinutes =
      jsRound ((exQueueOne.currentCount : ℚ) * (15 * serviceMultiplier "examination" *
        (if (12 : Int) ∈ peakHours then 6/5 else 1) *
        (if (2 : Int) = 0 ∨ (2 : Int) = 6 then 4/5 else 1))) ∧
    exceptOk (createTicket exQueueOne 0 none defaultETA) =
      exceptOk (createTicket exQueueOne 0 none
        { estimatedMinutes := 99, confidence := "high", method := "hourly_pattern" })) :=
  ⟨rfl, eta_recovers_default exQueueOne (some exQueueOne) 12 2 [] "examination"
    0 none defaultETA
    { estimatedMinutes := 99, confidence := "high", method := "hourly_pattern" } rfl⟩

/-- C7 counterexample: with zero historical samples and a queue whose
`currentCount` is 0, the estimator returns minutes 0 (waiting-count × the
15-minute default), not the constant 15 the claim's record demands. -/
theorem eta_zero_samples_minutes_cex :
    calculateETA false (some (freshQueue 5)) 12 2 [] "examination" =
      { estimatedMinutes := 0, confidence := "low", method := "default" } ∧
    (0 : Int) ≠ 15 := by
  constructor
  · simp only [calculateETA, freshQueue, listMean, serviceMultiplier, peakHours,
      jsRound]
    norm_num
  · decide

/-- C8: the minutes returned by `calculateETA` are exactly
`Math.round(currentCount × perCustomer)` where `perCustomer` is the spec's
per-customer service time (§4.4): the 30-day mean when ≥ 10 samples exist,
refined to the ±1 hour-of-day subset mean when that subset has ≥ 5
samples, else the fixed 15-minute default — multiplied by the
service-type, peak-hour and weekend multipliers. -/
theorem eta_formula (q : Queue) (hour day : Int)
    (samples : List RawTicketSample) (svc : String) :
    (calculateETA false (some q) hour day samples svc).estimatedMinutes =
      jsRound ((q.currentCount : ℚ) * specPerCustomer samples hour day svc) := by
  simp only [calculateETA, specPerCustomer, specBaseServiceTime]
  by_cases h10 : 10 ≤ samples.length
  · rw [if_pos h10, if_neg (Nat.not_lt.mpr h10)]
    by_cases h5 : 5 ≤ (samples.filter
        (fun s => hour - 1 ≤ s.hour ∧ s.hour ≤ hour + 1)).length
    · rw [if_pos h5, if_pos h5]
      rfl
    · rw [if_neg h5, if_neg h5]
      rfl
  · rw [if_neg h10, if_pos (Nat.not_le.mp h10)]
    rfl

/-- The ticket numbers of a ticket list, in creation order. -/
def ticketNums (ts : List Ticket) : List Nat :=
  ts.map (fun t => t.ticketNumber)

/-- The issuance invariant: the numbers of the stored tickets are strictly
increasing in creation order, and all of them are bounded by the queue's
`currentTicketNumber`. -/
def SysInv (s : Sys) : Prop :=
  (ticketNums s.tickets).Pairwise (· < ·) ∧
  ∀ t ∈ s.tickets, t.ticketNumber ≤ s.queue.currentTicketNumber

/-- Setting a position of a list to its current value changes nothing. -/
theorem set_get_self : ∀ (l : List Nat) (i : Nat) (x : Nat),
    l.get? i = some x → l.set i x = l := by
  intro l
  induction l with
  | nil => intro i x h; cases h
  | cons a as ih =>
    intro i x h
    cases i with
    | zero =>
      injection h with h
      rw [List.set, h]
    | succ n =>
      simp only [List.get?] at h
      rw [List.set, ih n x h]

/-- Replacing a stored ticket by one with the same number leaves the
number list unchanged. -/
theorem ticketNums_set {ts : List Ticket} {i : Nat} {t t' : Ticket}
    (hget : ts.get? i = some t) (hnum : t'.ticketNumber = t.ticketNumber) :
    ticketNums (ts.set i t') = ticketNums ts := by
  rw [ticketNums, List.map_set, hnum, ticketNums]
  apply set_get_self
  rw [List.get?_eq_getElem?, List.getElem?_map, ← List.get?_eq_getElem?, hget]
  rfl

/-- Request on an absent ticket position: state unchanged. -/
theorem applyTrans_none {s : Sys} {i : Nat}
    {f : Ticket → Queue → Except Err (Ticket × Queue)}
    (h : s.tickets.get? i = none) : applyTrans s i f = s := by
  simp only [applyTrans, h]

/-- Request whose embedded controller succeeds: both documents are saved. -/
theorem applyTrans_ok {s : Sys} {i : Nat} {t t' : Ticket} {q' : Queue}
    {f : Ticket → Queue → Except Err (Ticket × Queue)}
    (h1 : s.tickets.get? i = some t) (h2 : f t s.queue = Except.ok (t', q')) :
    applyTrans s i f = { queue := q', tickets := s.tickets.set i t' } := by
  simp only [applyTrans, h1, h2]

/-- Ticket-level requests whose saved documents keep the ticket number and
the queue's `currentTicketNumber` preserve the issuance invariant. -/
theorem applyTrans_inv (s : Sys) (i : Nat)
    (f : Ticket → Queue → Except Err (Ticket × Queue))
    (hf : ∀ t q t' q', f t q = Except.ok (t', q') →
      t'.ticketNumber = t.ticketNumber ∧
      q'.currentTicketNumber = q.currentTicketNumber)
    (h : SysInv s) : SysInv (applyTrans s i f) := by
  cases hget : s.tickets.get? i with
  | none =>
    rw [applyTrans_none hget]
    exact h
  | some t =>
    cases hres : f t s.queue with
    | error e =>
      rw [applyTrans_of_error e hget hres]
      exact h
    | ok r =>
      obtain ⟨t', q'⟩ := r
      obtain ⟨hnum, hcnt⟩ := hf t s.queue t' q' hres
      rw [applyTrans_ok hget hres]
      constructor
      · show (ticketNums (s.tickets.set i t')).Pairwise (· < ·)
        rw [ticketNums_set hget hnum]
        exact h.1
      · intro u hu
        show u.ticketNumber ≤ q'.currentTicketNumber
        rw [hcnt]
        rcases List.mem_or_eq_of_mem_set hu with hu' | hu'
        · exact h.2 u hu'
        · rw [hu', hnum]
          exact h.2 t (List.get?_mem hget)

/-- Inversion of a successful admission: the committed queue advanced its
ticket counter by one and the persisted ticket carries the post-increment
number with status "waiting". -/
theorem createTicket_ok {q : Queue} {tid : Nat} {uid : Option Nat}
    {eta : ETAPrediction} {q' : Queue} {t : Ticket}
    (h : createTicket q tid uid eta = Except.ok (q', t)) :
    q'.currentTicketNumber = q.currentTicketNumber + 1 ∧
    t.ticketNumber = q'.currentTicketNumber ∧
    t.status = TStatus.waiting := by
  by_cases h1 : q.status = QStatus.active
  · by_cases h2 : (q.maxCapacity : Int) ≤ q.currentCount
    · simp [createTicket, h1, h2] at h
    · cases hac : admitCommit q with
      | none => simp [createTicket, h1, h2, hac] at h
      | some q2 =>
        simp only [admitCommit, Option.ite_none_right_eq_some,
          Option.some.injEq] at hac
        simp [createTicket, h1, h2, admitCommit, hac.1, hac.2] at h
        obtain ⟨hq, ht⟩ := h
        refine ⟨?_, ?_, ?_⟩
        · rw [← hq]
        · rw [← ht, ← hq]
        · rw [← ht]
  · simp [createTicket, h1] at h

/-- Cancel keeps the ticket number and the queue's ticket counter. -/
theorem cancelTicket_pres {t : Ticket} {q : Queue} {reason : Option String}
    {t' : Ticket} {q' : Queue}
    (h : cancelTicket t q reason = Except.ok (t', q')) :
    t'.ticketNumber = t.ticketNumber ∧
    q'.currentTicketNumber = q.currentTicketNumber := by
  by_cases hc : t.status = TStatus.done ∨ t.status = TStatus.cancelled ∨
      t.status = TStatus.missed
  · simp [cancelTicket, hc] at h
  · simp only [cancelTicket, hc, if_false, Except.ok.injEq, Prod.mk.injEq] at h
    obtain ⟨ht, hq⟩ := h
    constructor
    · rw [← ht]
    · by_cases hw : t.status = TStatus.waiting
      · rw [← hq, if_pos hw]
      · rw [← hq, if_neg hw]

/-- Call keeps the ticket number and the queue's ticket counter. -/
theorem callTicket_pres {t : Ticket} {q : Queue} {now : Nat}
    {t' : Ticket} {q' : Queue}
    (h : callTicket t q now = Except.ok (t', q')) :
    t'.ticketNumber = t.ticketNumber ∧
    q'.currentTicketNumber = q.currentTicketNumber := by
  by_cases hc : t.status = TStatus.waiting
  · simp [callTicket, hc] at h
    exact ⟨by rw [← h.1], by rw [← h.2]⟩
  · simp [callTicket, hc] at h

/-- Serve keeps the ticket number and the queue's ticket counter. -/
theorem serveTicket_pres {t : Ticket} {q : Queue} {now : Nat}
    {t' : Ticket} {q' : Queue}
    (h : serveTicket t q now = Except.ok (t', q')) :
    t'.ticketNumber = t.ticketNumber ∧
    q'.currentTicketNumber = q.currentTicketNumber := by
  by_cases hc : t.status = TStatus.called ∨ t.status = TStatus.waiting
  · simp [serveTicket, hc] at h
    exact ⟨by rw [← h.1], by rw [← h.2]⟩
  · simp [serveTicket, hc] at h

/-- Start keeps the ticket number and the queue's ticket counter. -/
theorem startTicket_pres {t : Ticket} {q : Queue}
    {t' : Ticket} {q' : Queue}
    (h : startTicket t q = Except.ok (t', q')) :
    t'.ticketNumber = t.ticketNumber ∧
    q'.currentTicketNumber = q.currentTicketNumber := by
  by_cases hc : t.status = TStatus.called ∨ t.status = TStatus.waiting
  · simp [startTicket, hc] at h
    exact ⟨by rw [← h.1], by rw [← h.2]⟩
  · simp [startTicket, hc] at h

/-- Complete keeps the ticket number and the queue's ticket counter. -/
theorem completeTicket_pres {t : Ticket} {q : Queue} {now : Nat}
    {t' : Ticket} {q' : Queue}
    (h : (completeTicket t q now).map (fun r => (r.1, r.2.1)) =
      Except.ok (t', q')) :
    t'.ticketNumber = t.ticketNumber ∧
    q'.currentTicketNumber = q.currentTicketNumber := by
  by_cases hc : t.status = TStatus.done
  · simp [completeTicket, hc, Except.map] at h
  · simp [completeTicket, hc, Except.map] at h
    exact ⟨by rw [← h.1], by rw [← h.2]⟩

/-- No-show keeps the ticket number and the queue's ticket counter. -/
theorem noShowTicket_pres {t : Ticket} {q : Queue}
    {t' : Ticket} {q' : Queue}
    (h : noShowTicket t q = Except.ok (t', q')) :
    t'.ticketNumber = t.ticketNumber ∧
    q'.currentTicketNumber = q.currentTicketNumber := by
  by_cases hc : t.status = TStatus.waiting
  · simp [noShowTicket, hc] at h
    exact ⟨by rw [← h.1], by rw [← h.2]⟩
  · simp [noShowTicket, hc] at h

/-- Step equation: a failing call-next leaves the state unchanged. -/
theorem stepCallNext_err {s : Sys} {e : Err}
    (h : callNextTicket s.queue s.tickets 0 = Except.error e) :
    step s Op.callNext = s := by
  simp only [step, h]

/-- Step equation: a successful call-next saves the returned documents. -/
theorem stepCallNext_ok {s : Sys} {tc : Ticket} {qr : Queue}
    {ts' : List Ticket}
    (h : callNextTicket s.queue s.tickets 0 = Except.ok (tc, qr, ts')) :
    step s Op.callNext = { queue := qr, tickets := ts' } := by
  simp only [step, h]

/-- Call-next preserves the issuance invariant. -/
theorem callNext_inv (s : Sys) (h : SysInv s) : SysInv (step s Op.callNext) := by
  cases hr : callNextTicket s.queue s.tickets 0 with
  | error e =>
    rw [stepCallNext_err hr]
    exact h
  | ok r =>
    obtain ⟨tc, qr, ts'⟩ := r
    rw [stepCallNext_ok hr]
    by_cases hq : s.queue.status = QStatus.active
    · simp only [callNextTicket, hq, ne_eq, not_true_eq_false, if_false] at hr
      cases hmin : minWaiting s.tickets with
      | none =>
        rw [hmin] at hr
        simp at hr
      | some t =>
        rw [hmin] at hr
        simp only [Except.ok.injEq, Prod.mk.injEq] at hr
        obtain ⟨htc, hqr, hts⟩ := hr
        have ht : t ∈ s.tickets := List.mem_of_mem_filter (minWaiting_mem hmin)
        constructor
        · show (ticketNums ts').Pairwise (· < ·)
          rw [← hts, ticketNums, List.map_map]
          have hmapeq : s.tickets.map
              ((fun t => t.ticketNumber) ∘ (fun u =>
                if u.ticketNumber = t.ticketNumber ∧ u.status = TStatus.waiting
                then { t with status := TStatus.called, calledAt := some 0 }
                else u)) = s.tickets.map (fun t => t.ticketNumber) := by
            apply List.map_congr_left
            intro u _
            by_cases hcnd : u.ticketNumber = t.ticketNumber ∧
                u.status = TStatus.waiting
            · simp [Function.comp, hcnd, hcnd.1]
            · simp [Function.comp, hcnd]
          rw [hmapeq]
          exact h.1
        · intro u hu
          show u.ticketNumber ≤ qr.currentTicketNumber
          rw [← hqr]
          rw [← hts] at hu
          obtain ⟨v, hv, hvu⟩ := List.mem_map.mp hu
          rw [← hvu]
          by_cases hcnd : v.ticketNumber = t.ticketNumber ∧
              v.status = TStatus.waiting
          · rw [if_pos hcnd]
            exact h.2 t ht
          · rw [if_neg hcnd]
            exact h.2 v hv
    · simp [callNextTicket, hq] at hr

/-- Every request except the counter-resetting full close preserves the
issuance invariant. -/
theorem step_inv (s : Sys) (op : Op) (hop : op ≠ Op.closeFull)
    (h : SysInv s) : SysInv (step s op) := by
  cases op with
  | admitReq =>
    simp only [step]
    cases hc : createTicket s.queue s.tickets.length none defaultETA with
    | error e => exact h
    | ok r =>
      obtain ⟨q', t⟩ := r
      obtain ⟨hcnt, hnum, _⟩ := createTicket_ok hc
      constructor
      · show (ticketNums (s.tickets ++ [t])).Pairwise (· < ·)
        rw [ticketNums, List.map_append]
        refine List.pairwise_append.mpr ⟨h.1, by simp, ?_⟩
        intro a ha b hb
        simp only [List.map_cons, List.map_nil, List.mem_singleton] at hb
        obtain ⟨u, hu, hua⟩ := List.mem_map.mp ha
        rw [hb, hnum, hcnt, ← hua]
        exact Nat.lt_succ_of_le (h.2 u hu)
      · intro u hu
        show u.ticketNumber ≤ q'.currentTicketNumber
        rcases List.mem_append.mp hu with hu' | hu'
        · rw [hcnt]
          exact le_trans (h.2 u hu') (Nat.le_succ _)
        · rw [List.mem_singleton.mp hu', hnum]
  | cancel i reason =>
    exact applyTrans_inv s i _ (fun t q t' q' hok => cancelTicket_pres hok) h
  | call i =>
    exact applyTrans_inv s i _ (fun t q t' q' hok => callTicket_pres hok) h
  | serve i =>
    exact applyTrans_inv s i _ (fun t q t' q' hok => serveTicket_pres hok) h
  | start i =>
    exact applyTrans_inv s i _ (fun t q t' q' hok => startTicket_pres hok) h
  | complete i =>
    exact applyTrans_inv s i _ (fun t q t' q' hok => completeTicket_pres hok) h
  | noShow i =>
    exact applyTrans_inv s i _ (fun t q t' q' hok => noShowTicket_pres hok) h
  | callNext => exact callNext_inv s h
  | closeFull => exact absurd rfl hop
  | closeSimple => exact ⟨h.1, h.2⟩
  | pauseQ => exact ⟨h.1, h.2⟩
  | resumeQ => exact ⟨h.1, h.2⟩

/-- Any request sequence without the counter-resetting full close
preserves the issuance invariant. -/
theorem runOps_inv : ∀ (ops : List Op) (s : Sys), SysInv s →
    Op.closeFull ∉ ops → SysInv (runOps s ops) := by
  intro ops
  induction ops with
  | nil => intro s h _; exact h
  | cons op rest ih =>
    intro s h hno
    show SysInv (runOps (step s op) rest)
    refine ih (step s op) (step_inv s op ?_ h) ?_
    · intro heq
      exact hno (heq ▸ List.mem_cons_self op rest)
    · intro hm
      exact hno (List.mem_cons_of_mem op hm)

/-- The ticket issued by the first admission against a fresh queue of
capacity 2. -/
def exIssuedTicket : Ticket :=
  { tid := 0, userId := none, ticketNumber := 1, status := TStatus.waiting,
    calledAt := none, startedAt := none, completedAt := none,
    cancelReason := none, estimatedTime := 15 }

/-- The queue state after that first admission. -/
def exAdmittedQueue : Queue :=
  { maxCapacity := 2, currentCount := 1, currentTicketNumber := 1,
    status := QStatus.active }

/-- C2 (amended): every persisted ticket has status "waiting" and carries
exactly the post-increment `currentTicketNumber` of the conditional
update; and along every request sequence that does not contain the full
close operation (whose counter reset allows number reuse after a resume),
the ticket numbers of one Queue are pairwise distinct and strictly
increasing in issuance order. -/
theorem ticket_numbers_increasing (c : Nat) (ops : List Op) (q : Queue)
    (tid : Nat) (uid : Option Nat) (eta : ETAPrediction) (q' : Queue)
    (t : Ticket)
    (hno : Op.closeFull ∉ ops)
    (hcr : createTicket q tid uid eta = Except.ok (q', t)) :
    t.status = TStatus.waiting ∧
    t.ticketNumber = q'.currentTicketNumber ∧
    (ticketNums (runOps (freshSys c) ops).tickets).Pairwise (· < ·) := by
  obtain ⟨h1, h2, h3⟩ := createTicket_ok hcr
  refine ⟨h3, h2, ?_⟩
  have hfresh : SysInv (freshSys c) := by
    constructor
    · show (ticketNums []).Pairwise (· < ·)
      exact List.Pairwise.nil
    · intro u hu
      cases hu
  exact (runOps_inv ops (freshSys c) hfresh hno).1

/-- C2 witness: two admissions against a fresh capacity-2 queue issue the
strictly increasing numbers 1, 2; the first admission's persisted ticket is
the waiting ticket number 1 = post-increment counter. -/
theorem ticket_numbers_increasing_witness :
    (Op.closeFull ∉ [Op.admitReq, Op.admitReq] ∧
     createTicket (freshQueue 2) 0 none defaultETA =
       Except.ok (exAdmittedQueue, exIssuedTicket)) ∧
    (exIssuedTicket.status = TStatus.waiting ∧
     exIssuedTicket.ticketNumber = exAdmittedQueue.currentTicketNumber ∧
     (ticketNums (runOps (freshSys 2) [Op.admitReq, Op.admitReq]).tickets).Pairwise
       (· < ·)) :=
  ⟨⟨by decide, by rfl⟩,
   ticket_numbers_increasing 2 [Op.admitReq, Op.admitReq] (freshQueue 2) 0 none
     defaultETA exAdmittedQueue exIssuedTicket (by decide) (by rfl)⟩

/-- C2 counterexample: admission, full close (which resets
`currentTicketNumber` to 0 while cancelling the waiting ticket), resume,
second admission — the queue issues ticket number 1 twice, so the numbers
of one Queue are neither pairwise distinct nor strictly increasing. -/
theorem ticket_numbers_reused_cex :
    ticketNums (runOps (freshSys 1)
      [Op.admitReq, Op.closeFull, Op.resumeQ, Op.admitReq]).tickets = [1, 1] ∧
    ¬ (ticketNums (runOps (freshSys 1)
      [Op.admitReq, Op.closeFull, Op.resumeQ, Op.admitReq]).tickets).Pairwise
        (· < ·) := by
  constructor
  · decide
  · decide

end QMS
